import Mathlib

/-!
Verification development for the computer-use agent system.

The definitions below are a shallow embedding of the repository's data model
(`src/data_model.py`), the plan builder (`src/task_planner.py`) and the
grounding pipeline (`src/vision_output_processor.py`).  Python floats are
modelled as exact rationals, Python `datetime` values as opaque strings, and
JSON documents as an inductive `Json` type.  The external text-completion
collaborator is modelled as an oracle supplied to the embedded functions, so
theorems quantify over every possible collaborator behaviour.
-/

namespace CUA

/-- Enum `MouseAction` of data_model.py. -/
inductive MouseAction
  | left_click | right_click | double_click | drag | drop | hover
deriving DecidableEq, Repr

/-- Enum `KeyboardAction` of data_model.py. -/
inductive KeyboardAction
  | type | hotkey | press | release | ctrl_left | alt_tab | windows | escape
deriving DecidableEq, Repr

/-- Enum `SystemAction` of data_model.py. -/
inductive SystemAction
  | wait | verify | scroll | screenshot
deriving DecidableEq, Repr

/-- Enum `ValidationStatus` of data_model.py. -/
inductive ValidationStatus
  | pending | success | failed | retry
deriving DecidableEq, Repr

/-- Union `ActionType = Union[MouseAction, KeyboardAction, SystemAction]`. -/
inductive ActionType
  | mouse (a : MouseAction)
  | keyboard (a : KeyboardAction)
  | system (a : SystemAction)
deriving DecidableEq, Repr

/-- Enum `UIElementType` of data_model.py. -/
inductive UIElementType
  | window | terminal | icon | taskbar | search_bar
  | text_input | button | menu_item | menu_bar
deriving DecidableEq, Repr

/-- Model `UIElement` of data_model.py; floats are modelled as rationals. -/
structure UIElement where
  element_type : UIElementType
  description : String
  expected_location : Option (Rat × Rat) := none
  confidence_required : Rat := mkRat 6 10
  context : Option String := none
deriving DecidableEq, Repr

/-- Model `ValidationResult` of data_model.py (`retry_count`/`max_retries` are
Python ints, modelled as `Int`). -/
structure ValidationResult where
  status : ValidationStatus := .pending
  message : Option String := none
  retry_count : Int := 0
  max_retries : Int := 3
deriving DecidableEq, Repr

/-- Model `ScreenshotMetadata` of data_model.py; the `datetime` timestamp is
modelled as an opaque string. -/
structure ScreenshotMetadata where
  timestamp : String
  path : String
  resolution : Int × Int
  description : Option String := none
deriving DecidableEq, Repr

/-- Model `DetectedElement` of data_model.py.  Note that `confidence` carries no
range constraint in the source model. -/
structure DetectedElement where
  element : UIElement
  confidence : Rat
  possible_actions : List ActionType := []
  bounding_box : Option (Int × Int × Int × Int) := none
deriving DecidableEq, Repr

/-- Model `DetectedElements` of data_model.py. -/
structure DetectedElements where
  elements : List DetectedElement := []
  total_count : Int := 0
  highest_confidence : Rat := 0
  raw_output : Option String := none
deriving DecidableEq, Repr

/-- Model `ScreenshotResult` of data_model.py. -/
structure ScreenshotResult where
  metadata : ScreenshotMetadata
  detected : DetectedElements := {}
  validation_status : ValidationStatus := .pending
  analysis_complete : Bool := false
deriving DecidableEq, Repr

/-- JSON values, as produced by `json.loads`. -/
inductive Json
  | null
  | bool (b : Bool)
  | num (q : Rat)
  | str (s : String)
  | arr (xs : List Json)
  | obj (fields : List (String × Json))
deriving Repr

/-- Dictionary lookup on a parsed JSON object (keys of a parsed Python dict
are unique). -/
def lookupKey : List (String × Json) → String → Option Json
  | [], _ => none
  | (k, v) :: rest, key => if k = key then some v else lookupKey rest key

/-- String value of `UIElementType` members (the wire contract). -/
def UIElementType.ofString : String → Option UIElementType
  | "window" => some .window
  | "terminal" => some .terminal
  | "icon" => some .icon
  | "taskbar" => some .taskbar
  | "search_bar" => some .search_bar
  | "text_input" => some .text_input
  | "button" => some .button
  | "menu_item" => some .menu_item
  | "menu_bar" => some .menu_bar
  | _ => none

/-- String value of `MouseAction` members. -/
def MouseAction.ofString : String → Option MouseAction
  | "left_click" => some .left_click
  | "right_click" => some .right_click
  | "double_click" => some .double_click
  | "drag" => some .drag
  | "drop" => some .drop
  | "hover" => some .hover
  | _ => none

/-- String value of `KeyboardAction` members. -/
def KeyboardAction.ofString : String → Option KeyboardAction
  | "type" => some .type
  | "hotkey" => some .hotkey
  | "press" => some .press
  | "release" => some .release
  | "ctrl_left" => some .ctrl_left
  | "alt_tab" => some .alt_tab
  | "windows" => some .windows
  | "escape" => some .escape
  | _ => none

/-- String value of `SystemAction` members. -/
def SystemAction.ofString : String → Option SystemAction
  | "wait" => some .wait
  | "verify" => some .verify
  | "scroll" => some .scroll
  | "screenshot" => some .screenshot
  | _ => none

/-- Pydantic validation of the `ActionType` union: the member enums are tried
in declaration order (their string values do not overlap). -/
def ActionType.ofString (s : String) : Option ActionType :=
  match MouseAction.ofString s with
  | some a => some (.mouse a)
  | none =>
    match KeyboardAction.ofString s with
    | some a => some (.keyboard a)
    | none =>
      match SystemAction.ofString s with
      | some a => some (.system a)
      | none => none

/-- String value of `ValidationStatus` members. -/
def ValidationStatus.ofString : String → Option ValidationStatus
  | "pending" => some .pending
  | "success" => some .success
  | "failed" => some .failed
  | "retry" => some .retry
  | _ => none

/-- Model `TaskAction` of data_model.py; `retry_strategy : Dict` is modelled as a
list of JSON fields. -/
structure TaskAction where
  action_type : ActionType
  target_element : UIElement
  input_data : Option String := none
  screenshot_before : Option ScreenshotResult := none
  screenshot_after : Option ScreenshotResult := none
  validation_result : ValidationResult :=
    { status := .pending, message := none, retry_count := 0, max_retries := 3 }
  retry_strategy : List (String × Json) :=
    [("max_attempts", Json.num 3), ("delay_between_attempts", Json.num 1)]

/-- Model `Task` of data_model.py. -/
structure Task where
  task_id : String
  description : String
  actions : List TaskAction
  dependencies : List String := []
  validation_status : ValidationStatus := .pending

/-- Model `TaskPlan` of data_model.py. -/
structure TaskPlan where
  goal : String
  tasks : List Task
  current_task_index : Int := 0
  status : ValidationStatus := .pending

/-! ## Grounding pipeline (`src/vision_output_processor.py`) -/

/-- A JSON string, or `none` (a type error in Python). -/
def Json.getStr : Json → Option String
  | .str s => some s
  | _ => none

/-- A JSON number (Python int or float), or `none`. -/
def Json.getNum : Json → Option Rat
  | .num q => some q
  | _ => none

/-- A JSON integer (a number with no fractional part), or `none`. -/
def Json.getInt : Json → Option Int
  | .num q => if q.den = 1 then some q.num else none
  | _ => none

/-- A JSON array, or `none`. -/
def Json.getArr : Json → Option (List Json)
  | .arr xs => some xs
  | _ => none

/-- A JSON object's field list, or `none`. -/
def Json.getObj : Json → Option (List (String × Json))
  | .obj fs => some fs
  | _ => none

/-- Pydantic validation of `UIElement(**d)`: `element_type` (closed
vocabulary) and `description` are required, `expected_location` is an
optional pair of numbers, `confidence_required` defaults to 0.6 and must lie
in [0, 1], `context` is an optional string.  Any failure models the
`ValidationError`/`TypeError` the construction raises. -/
def validateUIElement (j : Json) : Option UIElement := do
  let fs ← j.getObj
  let et ← (← (← lookupKey fs "element_type").getStr) |> UIElementType.ofString
  let d ← (← lookupKey fs "description").getStr
  let el ←
    match lookupKey fs "expected_location" with
    | none => some none
    | some .null => some none
    | some v => do
      let xs ← v.getArr
      match xs with
      | [a, b] => do pure (some ((← a.getNum), (← b.getNum)))
      | _ => none
  let cr ←
    match lookupKey fs "confidence_required" with
    | none => some (mkRat 6 10)
    | some v => do
      let q ← v.getNum
      if 0 ≤ q ∧ q ≤ 1 then some q else none
  let ctx ←
    match lookupKey fs "context" with
    | none => some none
    | some .null => some none
    | some v => do pure (some (← v.getStr))
  pure { element_type := et, description := d, expected_location := el,
         confidence_required := cr, context := ctx }

/-- A `bounding_box` value: `null` or a 4-tuple of ints. -/
def resolveBoundingBox : Json → Option (Option (Int × Int × Int × Int))
  | .null => some none
  | .arr [a, b, c, d] => do
      pure (some ((← a.getInt), (← b.getInt), (← c.getInt), (← d.getInt)))
  | _ => none

/-- One `possible_actions` entry: a string resolved through the
`ActionType` union. -/
def resolveAction (j : Json) : Option ActionType := do
  ActionType.ofString (← j.getStr)

/-- Traversal of a list with an `Option`-valued function (a single failure fails the whole
list, as one raised exception aborts a Python list comprehension). -/
def traverse {α β : Type} (f : α → Option β) : List α → Option (List β)
  | [] => some []
  | x :: xs => do pure ((← f x) :: (← traverse f xs))

/-- One entry of the parsed `"elements"` list, resolved exactly as
vision_output_processor.py lines 200-208 build a `DetectedElement`:
`e["element"]`, `e["confidence"]`, `e["possible_actions"]` and
`e["bounding_box"]` are all required subscripts, and `none` models the
exception raised on any missing key or failed validation.  `confidence` is
not range-checked (the model declares a bare `float`). -/
def resolveEntry (j : Json) : Option DetectedElement := do
  let fs ← j.getObj
  let el ← validateUIElement (← lookupKey fs "element")
  let conf ← (← lookupKey fs "confidence").getNum
  let pas ← traverse resolveAction (← (← lookupKey fs "possible_actions").getArr)
  let bb ← resolveBoundingBox (← lookupKey fs "bounding_box")
  pure { element := el, confidence := conf, possible_actions := pas,
         bounding_box := bb }

/-- Python `max` over a list (left fold); `none` models the `ValueError`
raised on an empty sequence. -/
def listMax : List Rat → Option Rat
  | [] => none
  | x :: xs => some (xs.foldl max x)

/-- The aggregation step, vision_output_processor.py lines 219-227, applied
to a screenshot's current `detected` value and the freshly resolved element
list.  The three assignments happen in source order: `elements`, then
`total_count`, then `highest_confidence = max(...)`; on an empty list the
`max` call raises after the first two assignments, so the returned flag is
`false` and `highest_confidence` keeps its previous value. -/
def aggregate (d : DetectedElements) (es : List DetectedElement) :
    DetectedElements × Bool :=
  let d1 := { d with elements := es, total_count := (es.length : Int) }
  match listMax (es.map (fun e => e.confidence)) with
  | some m => ({ d1 with highest_confidence := m }, true)
  | none => (d1, false)

/-- The collaborator, as the grounding pipeline observes it: `condense`
gives the Stage-A response text for a user message, and `convert` gives the
Stage-B response for a user message after fence stripping and `json.loads`
(`none` models a raised `json.JSONDecodeError`). -/
structure Client where
  condense : String → String
  convert : String → Option Json

/-- A record of one collaborator call, tagged by stage and carrying the
user-message content sent. -/
inductive Call
  | condense (user : String)
  | convert (user : String)
deriving DecidableEq, Repr

/-- Python truthiness of `Optional[str]`: `None` and `""` are falsy. -/
def truthy : Option String → Bool
  | none => false
  | some s => !(s == "")

/-- Stage A (vision_output_processor.py lines 78-96): for each screenshot
with truthy `raw_output`, call the collaborator with the condense prompt and
collect the response; other screenshots are skipped entirely.  Returns the
collected `condensed_elements` list and the call log. -/
def stageA (c : Client) : List ScreenshotResult → List String × List Call
  | [] => ([], [])
  | r :: rs =>
    let rest := stageA c rs
    match r.detected.raw_output with
    | none => rest
    | some raw =>
      if raw = "" then rest
      else (c.condense raw :: rest.1, Call.condense raw :: rest.2)

/-- The update Stage B applies to one screenshot's `detected` state
(vision_output_processor.py lines 174-240): the collaborator is called with
the conversion prompt and the screenshot's ORIGINAL `raw_output` as user
content (line 178).  The parsed document must be a dict containing
`"elements"`; its entries are resolved by one list comprehension, a single
failure raising out of the whole comprehension; on success the aggregation
assignments run.  Every failure path is caught by the per-screenshot handler
(line 238) and leaves `detected` exactly as it was. -/
def stageBUpdate (c : Client) (raw : String) (d : DetectedElements) :
    DetectedElements :=
  match c.convert raw with
  | none => d
  | some j =>
    match j with
    | .obj fs =>
      match lookupKey fs "elements" with
      | none => d
      | some elJ =>
        match elJ.getArr with
        | none => d
        | some entries =>
          match traverse resolveEntry entries with
          | none => d
          | some des => (aggregate d des).1
    | _ => d

/-- Stage B for one screenshot: no call at all without truthy `raw_output`,
otherwise one conversion call whose user content is the raw output, followed
by the update of `detected` described at `stageBUpdate`. -/
def stageBStep (c : Client) (r : ScreenshotResult) :
    ScreenshotResult × List Call :=
  match r.detected.raw_output with
  | none => (r, [])
  | some raw =>
    if raw = "" then (r, [])
    else ({ r with detected := stageBUpdate c raw r.detected },
          [Call.convert raw])

/-- Stage B over the whole batch, in order. -/
def stageB (c : Client) : List ScreenshotResult → List ScreenshotResult × List Call
  | [] => ([], [])
  | r :: rs =>
    let (r1, cs1) := stageBStep c r
    let (rs1, cs2) := stageB c rs
    (r1 :: rs1, cs1 ++ cs2)

/-- What one call of `process_outputs` produces: the returned result list,
the `condensed_elements` accumulated by Stage A (the source collects them at
line 96 and never uses them afterwards), and the log of collaborator calls
in order. -/
structure ProcessTrace where
  results : List ScreenshotResult
  condensed_elements : List String
  calls : List Call

/-- Function `process_outputs` of vision_output_processor.py: the full Stage-A loop
runs first, then the conversion prompt is built once, then the Stage-B loop
runs; the function returns its (per-item updated) input list.  The
`task_plan` argument is accepted but never read by the conversion prompt
(`CONVERT_PROMPT.format` at lines 137-164 takes no task-plan field). -/
def process_outputs (c : Client) (vision_outputs : List ScreenshotResult)
    (_task_plan : TaskPlan) : ProcessTrace :=
  let a := stageA c vision_outputs
  let b := stageB c vision_outputs
  { results := b.1, condensed_elements := a.1, calls := a.2 ++ b.2 }

/-! ## Plan builder (`src/task_planner.py`)

`TaskPlan.model_validate_json` is embedded as a validator over parsed JSON:
required fields must be present with the right shape, optional fields fall
back to the model defaults declared in data_model.py, closed-vocabulary
strings must match an enum value exactly, and extra keys are ignored
(pydantic's default).  Failure carries a diagnostic string. -/

/-- Required string field. -/
def reqStr (fs : List (String × Json)) (k : String) : Except String String :=
  match lookupKey fs k with
  | some (.str s) => .ok s
  | some _ => .error (k ++ ": string expected")
  | none => .error (k ++ ": field required")

/-- Required array field. -/
def reqArr (fs : List (String × Json)) (k : String) :
    Except String (List Json) :=
  match lookupKey fs k with
  | some (.arr xs) => .ok xs
  | some _ => .error (k ++ ": list expected")
  | none => .error (k ++ ": field required")

/-- Optional string field (absent or `null` gives `none`). -/
def optStr (fs : List (String × Json)) (k : String) :
    Except String (Option String) :=
  match lookupKey fs k with
  | none => .ok none
  | some .null => .ok none
  | some (.str s) => .ok (some s)
  | some _ => .error (k ++ ": string expected")

/-- Integer field with a default. -/
def intFieldD (fs : List (String × Json)) (k : String) (d : Int) :
    Except String Int :=
  match lookupKey fs k with
  | none => .ok d
  | some v =>
    match v.getInt with
    | some n => .ok n
    | none => .error (k ++ ": int expected")

/-- Number field with a default. -/
def numFieldD (fs : List (String × Json)) (k : String) (d : Rat) :
    Except String Rat :=
  match lookupKey fs k with
  | none => .ok d
  | some v =>
    match v.getNum with
    | some q => .ok q
    | none => .error (k ++ ": number expected")

/-- Field of type `ValidationStatus` with a default. -/
def statusFieldD (fs : List (String × Json)) (k : String)
    (d : ValidationStatus) : Except String ValidationStatus :=
  match lookupKey fs k with
  | none => .ok d
  | some (.str s) =>
    match ValidationStatus.ofString s with
    | some st => .ok st
    | none => .error (k ++ ": invalid validation status")
  | some _ => .error (k ++ ": string expected")

/-- Validation of a `UIElement` document, with pydantic diagnostics. -/
def validateUIElementE (j : Json) : Except String UIElement :=
  match validateUIElement j with
  | some e => .ok e
  | none => .error "UIElement: validation error"

/-- Validation of a `ValidationResult` document (all fields defaulted). -/
def validateValidationResult (j : Json) : Except String ValidationResult :=
  match j.getObj with
  | none => .error "ValidationResult: object expected"
  | some fs => do
    let st ← statusFieldD fs "status" .pending
    let msg ← optStr fs "message"
    let rc ← intFieldD fs "retry_count" 0
    let mr ← intFieldD fs "max_retries" 3
    .ok { status := st, message := msg, retry_count := rc, max_retries := mr }

/-- Validation of a `ScreenshotMetadata` document: `timestamp` and `path`
required (the `datetime` parse is modelled as accepting any string),
`resolution` a required pair of ints. -/
def validateMetadata (j : Json) : Except String ScreenshotMetadata :=
  match j.getObj with
  | none => .error "ScreenshotMetadata: object expected"
  | some fs => do
    let ts ← reqStr fs "timestamp"
    let p ← reqStr fs "path"
    let res ←
      match lookupKey fs "resolution" with
      | some (.arr [a, b]) =>
        match a.getInt, b.getInt with
        | some x, some y => Except.ok (x, y)
        | _, _ => .error "resolution: int expected"
      | some _ => .error "resolution: pair expected"
      | none => .error "resolution: field required"
    let d ← optStr fs "description"
    .ok { timestamp := ts, path := p, resolution := res, description := d }

/-- Validation of a `DetectedElement` document through the pydantic model
(unlike `resolveEntry`, absent `possible_actions`/`bounding_box` fall back
to the model defaults here). -/
def validateDetectedElement (j : Json) : Except String DetectedElement :=
  match j.getObj with
  | none => .error "DetectedElement: object expected"
  | some fs => do
    let el ←
      match lookupKey fs "element" with
      | some v => validateUIElementE v
      | none => .error "element: field required"
    let conf ←
      match lookupKey fs "confidence" with
      | some v =>
        match v.getNum with
        | some q => Except.ok q
        | none => .error "confidence: number expected"
      | none => .error "confidence: field required"
    let pas ←
      match lookupKey fs "possible_actions" with
      | none => Except.ok ([] : List ActionType)
      | some v =>
        match v.getArr with
        | none => .error "possible_actions: list expected"
        | some xs =>
          match traverse resolveAction xs with
          | some acts => Except.ok acts
          | none => .error "possible_actions: invalid action"
    let bb ←
      match lookupKey fs "bounding_box" with
      | none => Except.ok (none : Option (Int × Int × Int × Int))
      | some v =>
        match resolveBoundingBox v with
        | some b => Except.ok b
        | none => .error "bounding_box: invalid"
    .ok { element := el, confidence := conf, possible_actions := pas,
          bounding_box := bb }

/-- Traversal of a list with an `Except`-valued function. -/
def traverseE {α β : Type} (f : α → Except String β) :
    List α → Except String (List β)
  | [] => .ok []
  | x :: xs => do pure ((← f x) :: (← traverseE f xs))

/-- Validation of a `DetectedElements` document. -/
def validateDetectedElements (j : Json) : Except String DetectedElements :=
  match j.getObj with
  | none => .error "DetectedElements: object expected"
  | some fs => do
    let es ←
      match lookupKey fs "elements" with
      | none => Except.ok ([] : List Json)
      | some v =>
        match v.getArr with
        | some xs => Except.ok xs
        | none => .error "elements: list expected"
    let els ← traverseE validateDetectedElement es
    let tc ← intFieldD fs "total_count" 0
    let hc ← numFieldD fs "highest_confidence" 0
    let raw ← optStr fs "raw_output"
    .ok { elements := els, total_count := tc, highest_confidence := hc,
          raw_output := raw }

/-- Validation of a `ScreenshotResult` document. -/
def validateScreenshotResult (j : Json) : Except String ScreenshotResult :=
  match j.getObj with
  | none => .error "ScreenshotResult: object expected"
  | some fs => do
    let md ←
      match lookupKey fs "metadata" with
      | some v => validateMetadata v
      | none => .error "metadata: field required"
    let det ←
      match lookupKey fs "detected" with
      | none => Except.ok ({} : DetectedElements)
      | some v => validateDetectedElements v
    let vs ← statusFieldD fs "validation_status" .pending
    let ac ←
      match lookupKey fs "analysis_complete" with
      | none => Except.ok false
      | some (.bool b) => Except.ok b
      | some _ => .error "analysis_complete: bool expected"
    .ok { metadata := md, detected := det, validation_status := vs,
          analysis_complete := ac }

/-- Optional `ScreenshotResult` field (absent or `null` gives `none`). -/
def optScreenshot (fs : List (String × Json)) (k : String) :
    Except String (Option ScreenshotResult) :=
  match lookupKey fs k with
  | none => .ok none
  | some .null => .ok none
  | some v => do pure (some (← validateScreenshotResult v))

/-- Validation of a `TaskAction` document: `action_type` is resolved through
the `ActionType` union, `target_element` is a required `UIElement`,
`validation_result` and `retry_strategy` fall back to the defaults declared
in data_model.py, and `retry_strategy` accepts any JSON object. -/
def validateTaskAction (j : Json) : Except String TaskAction :=
  match j.getObj with
  | none => .error "TaskAction: object expected"
  | some fs => do
    let at_ ←
      match lookupKey fs "action_type" with
      | some (.str s) =>
        match ActionType.ofString s with
        | some a => Except.ok a
        | none => .error "action_type: invalid action"
      | some _ => .error "action_type: string expected"
      | none => .error "action_type: field required"
    let te ←
      match lookupKey fs "target_element" with
      | some v => validateUIElementE v
      | none => .error "target_element: field required"
    let inp ← optStr fs "input_data"
    let sb ← optScreenshot fs "screenshot_before"
    let sa ← optScreenshot fs "screenshot_after"
    let vr ←
      match lookupKey fs "validation_result" with
      | none =>
        Except.ok { status := .pending, message := none, retry_count := 0,
                    max_retries := 3 : ValidationResult }
      | some v => validateValidationResult v
    let rs ←
      match lookupKey fs "retry_strategy" with
      | none =>
        Except.ok [("max_attempts", Json.num 3),
                   ("delay_between_attempts", Json.num 1)]
      | some v =>
        match v.getObj with
        | some o => Except.ok o
        | none => .error "retry_strategy: dict expected"
    .ok { action_type := at_, target_element := te, input_data := inp,
          screenshot_before := sb, screenshot_after := sa,
          validation_result := vr, retry_strategy := rs }

/-- Validation of a `Task` document.  Note: `dependencies` is validated only
as a list of strings — data_model.py declares `List[str]` with no check that
the named ids exist anywhere. -/
def validateTask (j : Json) : Except String Task :=
  match j.getObj with
  | none => .error "Task: object expected"
  | some fs => do
    let tid ← reqStr fs "task_id"
    let d ← reqStr fs "description"
    let actsJ ← reqArr fs "actions"
    let acts ← traverseE validateTaskAction actsJ
    let deps ←
      match lookupKey fs "dependencies" with
      | none => Except.ok ([] : List String)
      | some v =>
        match v.getArr with
        | none => .error "dependencies: list expected"
        | some xs =>
          match traverse Json.getStr xs with
          | some ss => Except.ok ss
          | none => .error "dependencies: string expected"
    let vs ← statusFieldD fs "validation_status" .pending
    .ok { task_id := tid, description := d, actions := acts,
          dependencies := deps, validation_status := vs }

/-- Embedding of `TaskPlan.model_validate_json` on an already-parsed document:
`goal` and `tasks` required; `current_task_index` defaults to 0 and `status`
to pending exactly when the document omits them, otherwise the document's
values are taken. -/
def validatePlan (j : Json) : Except String TaskPlan :=
  match j.getObj with
  | none => .error "TaskPlan: object expected"
  | some fs => do
    let g ← reqStr fs "goal"
    let tasksJ ← reqArr fs "tasks"
    let tasks ← traverseE validateTask tasksJ
    let idx ← intFieldD fs "current_task_index" 0
    let st ← statusFieldD fs "status" .pending
    .ok { goal := g, tasks := tasks, current_task_index := idx, status := st }

/-- The collaborator response as the planner observes it: a provider-level
exception (`.error`) or a content string, the latter abstracted to the
result of `json.loads` on it (`.error` diagnostic when the content is not
JSON). -/
def PlannerResp : Type := Except String (Except String Json)

/-- An exception in flight inside `planner`'s outer `try`. -/
inductive Raised
  | provider (msg : String)
  | valueError (msg : String)
deriving DecidableEq, Repr

/-- The message the outer handler reads from an in-flight exception
(`str(e)` in Python). -/
def Raised.msg : Raised → String
  | .provider m => m
  | .valueError m => m

/-- What `planner` does to its caller: returns a plan, or raises
`ValueError` (empty goal only, raised before the `try`), or raises
`RuntimeError` (everything the outer handler wraps). -/
inductive PlanOutcome
  | ok (p : TaskPlan)
  | valueError (msg : String)
  | runtimeError (msg : String)

/-- The returned plan of an outcome, if any. -/
def PlanOutcome.plan : PlanOutcome → Option TaskPlan
  | .ok p => some p
  | _ => none

/-- True exactly on the `RuntimeError` outcome. -/
def PlanOutcome.isRuntimeError : PlanOutcome → Bool
  | .runtimeError _ => true
  | _ => false

/-- Python whitespace, as `str.strip` removes it (the common cases). -/
def isPySpace (c : Char) : Bool :=
  c = ' ' || c = '\t' || c = '\n' || c = '\r'

/-- Python `str.strip()`: drop leading and trailing whitespace. -/
def pyStrip (s : String) : String :=
  ⟨((s.data.dropWhile isPySpace).reverse.dropWhile isPySpace).reverse⟩

/-- The body of `planner`'s outer `try` (task_planner.py lines 179-198): the
collaborator call may raise a provider exception; otherwise
`model_validate_json` either returns the plan or raises, and the inner
handler re-raises `ValueError` wrapping the parse diagnostic (line 198). -/
def plannerAttempt (resp : PlannerResp) : Except Raised TaskPlan :=
  match resp with
  | .error e => .error (.provider e)
  | .ok parsed =>
    match parsed.bind validatePlan with
    | .ok p => .ok p
    | .error diag =>
      .error (.valueError ("Failed to parse GPT response into TaskPlan: " ++ diag))

/-- Closure `planner` of task_planner.py (lines 53-202): empty/whitespace goals raise
`ValueError` before the `try`; then the outer `except Exception` (line 200)
catches EVERY exception raised inside the `try` — including the inner
`ValueError` of line 198 — and re-raises
`RuntimeError("Failed to generate task plan: " + str(e))`. -/
def planner (goal : String) (resp : PlannerResp) : PlanOutcome :=
  if pyStrip goal = "" then .valueError "Goal cannot be empty"
  else
    match plannerAttempt resp with
    | .ok p => .ok p
    | .error r => .runtimeError ("Failed to generate task plan: " ++ r.msg)

/-! ## Validation state machine -/

/-- Modelled from the spec: the repository declares the `ValidationResult`
fields (data_model.py lines 57-62) but contains no transition code for the
validation state machine; §4.1 describes it (pending → success | failed |
retry; retry transitions back to pending for a new attempt or to failed once
`retry_count` reaches `max_retries`).  A step is either a retry transition
after a failed attempt, or the start of a new attempt from the retry
state. -/
inductive VStep
  | retryStep
  | newAttempt
deriving DecidableEq, Repr

/-- Modelled from the spec: applying one step of §4.1's state machine.
Terminal states (success, failed) absorb; a retry transition increments
`retry_count` only while it is strictly below `max_retries` and otherwise
settles the result as failed (the required clamp); a new attempt returns a
retry state to pending without touching the counters. -/
def applyVStep : VStep → ValidationResult → ValidationResult
  | .retryStep, v =>
    match v.status with
    | .success => v
    | .failed => v
    | _ =>
      if v.retry_count < v.max_retries then
        { v with status := .retry, retry_count := v.retry_count + 1 }
      else
        { v with status := .failed }
  | .newAttempt, v =>
    match v.status with
    | .retry => { v with status := .pending }
    | _ => v

/-- Modelled from the spec: a whole sequence of state-machine steps applied
in order. -/
def runVSteps (ss : List VStep) (v : ValidationResult) : ValidationResult :=
  match ss with
  | [] => v
  | s :: rest => runVSteps rest (applyVStep s v)

/-! ## Concrete fixtures used by counterexamples and witnesses -/

/-- Screenshot metadata fixture. -/
def exMeta (p : String) : ScreenshotMetadata :=
  { timestamp := "2026-01-01T00:00:00", path := p, resolution := (1920, 1080) }

/-- A fresh (pre-grounding) screenshot result carrying the given raw
perception text. -/
def shotWith (p : String) (raw : Option String) : ScreenshotResult :=
  { metadata := exMeta p, detected := { raw_output := raw } }

/-- A trivial task plan (the pipeline never reads it). -/
def exPlan : TaskPlan := { goal := "search", tasks := [] }

/-- Collaborator fixture for the stage-wiring check: the condense response is
a fixed marker string, so any Stage-B user content can be compared against
it. -/
def c1Client : Client :=
  { condense := fun _ => "CONDENSED LIST", convert := fun _ => none }

/-- Screenshot fixture with raw text "RAW". -/
def c1Shot : ScreenshotResult := shotWith "shot1.png" (some "RAW")

/-- A resolvable Stage-B entry (window element, confidence 0.9). -/
def c2Good : Json :=
  .obj [("element", .obj [("element_type", .str "window"),
                          ("description", .str "main window")]),
        ("confidence", .num (mkRat 9 10)),
        ("possible_actions", .arr [.str "left_click"]),
        ("bounding_box", .null)]

/-- The detected element `c2Good` resolves to. -/
def c2GoodDE : DetectedElement :=
  { element := { element_type := .window, description := "main window" },
    confidence := mkRat 9 10,
    possible_actions := [.mouse .left_click],
    bounding_box := none }

/-- An unresolvable Stage-B entry: element_type outside the closed
vocabulary. -/
def c2Bad : Json :=
  .obj [("element", .obj [("element_type", .str "alien"),
                          ("description", .str "mystery widget")]),
        ("confidence", .num (mkRat 8 10)),
        ("possible_actions", .arr [.str "left_click"]),
        ("bounding_box", .null)]

/-- A Stage-B entry whose confidence 3.5 lies outside [0, 1]. -/
def c2HighConf : Json :=
  .obj [("element", .obj [("element_type", .str "button"),
                          ("description", .str "ok button")]),
        ("confidence", .num (mkRat 7 2)),
        ("possible_actions", .arr [.str "left_click"]),
        ("bounding_box", .null)]

/-- Parsed Stage-B document holding one resolvable and one unresolvable
entry. -/
def c2Doc1 : Json := .obj [("elements", .arr [c2Good, c2Bad])]

/-- Parsed Stage-B document holding only the out-of-range-confidence
entry. -/
def c2Doc2 : Json := .obj [("elements", .arr [c2HighConf])]

/-- Collaborator fixture returning `c2Doc1` for raw text "RAW1" and
`c2Doc2` for "RAW2". -/
def c2Client : Client :=
  { condense := fun s => s,
    convert := fun raw =>
      if raw = "RAW1" then some c2Doc1
      else if raw = "RAW2" then some c2Doc2
      else none }

/-- Screenshot fixtures for the per-element-skip check. -/
def c2Shot1 : ScreenshotResult := shotWith "a.png" (some "RAW1")

/-- Second screenshot fixture for the per-element-skip check. -/
def c2Shot2 : ScreenshotResult := shotWith "b.png" (some "RAW2")

/-- A Stage-B entry template parameterised by its confidence value. -/
def confEntry (q : Rat) : Json :=
  .obj [("element", .obj [("element_type", .str "button"),
                          ("description", .str "ok button")]),
        ("confidence", .num q),
        ("possible_actions", .arr [.str "left_click"]),
        ("bounding_box", .null)]

/-- The detected element `confEntry q` resolves to, for any confidence
whatsoever. -/
def confDE (q : Rat) : DetectedElement :=
  { element := { element_type := .button, description := "ok button" },
    confidence := q,
    possible_actions := [.mouse .left_click],
    bounding_box := none }

/-- Batch fixture: empty raw text. -/
def c8Shot1 : ScreenshotResult := shotWith "one.png" (some "")

/-- Batch fixture: non-empty raw text. -/
def c8Shot2 : ScreenshotResult := shotWith "two.png" (some "TEXT2")

/-- Batch fixture: absent raw text. -/
def c8Shot3 : ScreenshotResult := shotWith "three.png" none

/-- Collaborator fixture for the skip/process check. -/
def c8Client : Client :=
  { condense := fun _ => "ITEMS",
    convert := fun _ => some (.obj [("elements", .arr [c2Good])]) }

/-- A `DetectedElements` state as it stands before an aggregation call, with
a non-zero `highest_confidence` left from earlier. -/
def c3Prior : DetectedElements :=
  { elements := [], total_count := 0, highest_confidence := mkRat 1 2,
    raw_output := some "seen" }

/-- A collaborator JSON plan document that carries explicit
`current_task_index` and `status` values. -/
def c4Json : Json :=
  .obj [("goal", .str "find cats plan"),
        ("tasks", .arr []),
        ("current_task_index", .num 2),
        ("status", .str "success")]

/-- A collaborator JSON plan document whose single task references the
given dependency id (which names no task of the document). -/
def depDoc (dep : String) : Json :=
  .obj [("goal", .str "g"),
        ("tasks", .arr [
          .obj [("task_id", .str "t1"),
                ("description", .str "only task"),
                ("actions", .arr []),
                ("dependencies", .arr [.str dep])]])]

/-- The plan `depDoc dep` validates to. -/
def depPlan (dep : String) : TaskPlan :=
  { goal := "g",
    tasks := [{ task_id := "t1", description := "only task", actions := [],
                dependencies := [dep] }] }

/-! ## Helper lemmas -/

/-- Unfolding equation for `stageA` on a cons cell. -/
theorem stageA_cons (c : Client) (x : ScreenshotResult)
    (xs : List ScreenshotResult) :
    stageA c (x :: xs) =
      match x.detected.raw_output with
      | none => stageA c xs
      | some raw =>
        if raw = "" then stageA c xs
        else (c.condense raw :: (stageA c xs).1,
              Call.condense raw :: (stageA c xs).2) := rfl

/-- Unfolding equation for `stageB` on a cons cell. -/
theorem stageB_cons (c : Client) (x : ScreenshotResult)
    (xs : List ScreenshotResult) :
    stageB c (x :: xs) =
      ((stageBStep c x).1 :: (stageB c xs).1,
       (stageBStep c x).2 ++ (stageB c xs).2) := rfl

/-- The result list of Stage B is the input list mapped through the
per-screenshot step. -/
theorem stageB_fst (c : Client) (l : List ScreenshotResult) :
    (stageB c l).1 = l.map (fun r => (stageBStep c r).1) := by
  induction l with
  | nil => rfl
  | cons x xs ih => rw [stageB_cons, List.map_cons, ih]

/-- A screenshot without truthy raw text passes through Stage B untouched
and triggers no call. -/
theorem stageBStep_not_truthy (c : Client) (r : ScreenshotResult)
    (h : truthy r.detected.raw_output = false) : stageBStep c r = (r, []) := by
  unfold stageBStep
  cases hro : r.detected.raw_output with
  | none => rfl
  | some s =>
    have hs : s = "" := by
      rw [hro] at h
      simpa [truthy] using h
    simp [hs]

/-- A screenshot with truthy raw text triggers exactly one conversion call
carrying the raw text, and only its `detected` state is rewritten. -/
theorem stageBStep_truthy (c : Client) (r : ScreenshotResult) (raw : String)
    (h1 : r.detected.raw_output = some raw) (h2 : raw ≠ "") :
    stageBStep c r =
      ({ r with detected := stageBUpdate c raw r.detected },
       [Call.convert raw]) := by
  unfold stageBStep
  rw [h1]
  simp [h2]

/-- Aggregation rewrites only the three derived fields; `raw_output`
survives. -/
theorem aggregate_raw (d : DetectedElements) (es : List DetectedElement) :
    (aggregate d es).1.raw_output = d.raw_output := by
  unfold aggregate
  split <;> rfl

/-- Stage B's update never touches `raw_output`. -/
theorem stageBUpdate_raw (c : Client) (raw : String) (d : DetectedElements) :
    (stageBUpdate c raw d).raw_output = d.raw_output := by
  unfold stageBUpdate
  repeat' split
  all_goals first | rfl | exact aggregate_raw ..

/-- A failed top-level parse of the conversion response leaves `detected`
untouched. -/
theorem stageBUpdate_parse_fail (c : Client) (raw : String)
    (d : DetectedElements) (h : c.convert raw = none) :
    stageBUpdate c raw d = d := by
  unfold stageBUpdate
  rw [h]

/-- The per-screenshot step only ever rewrites the `detected` component. -/
theorem stageBStep_frame (c : Client) (r : ScreenshotResult) :
    (stageBStep c r).1.metadata = r.metadata
    ∧ (stageBStep c r).1.validation_status = r.validation_status
    ∧ (stageBStep c r).1.analysis_complete = r.analysis_complete
    ∧ (stageBStep c r).1.detected.raw_output = r.detected.raw_output := by
  by_cases h : truthy r.detected.raw_output = true
  · cases hro : r.detected.raw_output with
    | none => rw [hro] at h; simp [truthy] at h
    | some raw =>
      have h2 : raw ≠ "" := by
        rw [hro] at h
        simpa [truthy] using h
      rw [stageBStep_truthy c r raw hro h2]
      exact ⟨rfl, rfl, rfl, by simp [stageBUpdate_raw, hro]⟩
  · rw [stageBStep_not_truthy c r (by simpa using h)]
    exact ⟨rfl, rfl, rfl, rfl⟩

/-- The conversion calls of one step: none without truthy raw text, exactly
one (with the raw text as user content) otherwise. -/
theorem stageBStep_snd (c : Client) (r : ScreenshotResult) :
    (stageBStep c r).2 = []
    ∨ ∃ raw, r.detected.raw_output = some raw ∧ raw ≠ ""
        ∧ (stageBStep c r).2 = [Call.convert raw] := by
  by_cases h : truthy r.detected.raw_output = true
  · cases hro : r.detected.raw_output with
    | none => rw [hro] at h; simp [truthy] at h
    | some raw =>
      have h2 : raw ≠ "" := by
        rw [hro] at h
        simpa [truthy] using h
      refine .inr ⟨raw, rfl, h2, ?_⟩
      rw [stageBStep_truthy c r raw hro h2]
  · rw [stageBStep_not_truthy c r (by simpa using h)]
    exact .inl rfl

/-- Stage A skips a screenshot without raw text. -/
theorem stageA_cons_none (c : Client) (x : ScreenshotResult)
    (xs : List ScreenshotResult) (hx : x.detected.raw_output = none) :
    stageA c (x :: xs) = stageA c xs := by
  rw [stageA_cons, hx]

/-- Stage A skips a screenshot with empty raw text. -/
theorem stageA_cons_empty (c : Client) (x : ScreenshotResult)
    (xs : List ScreenshotResult) (hx : x.detected.raw_output = some "") :
    stageA c (x :: xs) = stageA c xs := by
  rw [stageA_cons, hx]
  simp

/-- Stage A calls the collaborator on a screenshot with truthy raw text. -/
theorem stageA_cons_some (c : Client) (x : ScreenshotResult)
    (xs : List ScreenshotResult) (raw : String)
    (hx : x.detected.raw_output = some raw) (h2 : raw ≠ "") :
    stageA c (x :: xs) =
      (c.condense raw :: (stageA c xs).1,
       Call.condense raw :: (stageA c xs).2) := by
  rw [stageA_cons, hx]
  simp [h2]

/-- Every condense call in the Stage-A log belongs to some batch member
with truthy raw text. -/
theorem stageA_sound (c : Client) (l : List ScreenshotResult) :
    ∀ cl ∈ (stageA c l).2, ∃ r ∈ l, ∃ raw,
      r.detected.raw_output = some raw ∧ raw ≠ "" ∧ cl = Call.condense raw := by
  induction l with
  | nil => intro cl h; cases h
  | cons x xs ih =>
    intro cl h
    have peel : cl ∈ (stageA c xs).2 →
        ∃ r ∈ x :: xs, ∃ raw,
          r.detected.raw_output = some raw ∧ raw ≠ "" ∧
          cl = Call.condense raw := by
      intro hm
      obtain ⟨r, hr, raw, ha, hb, hc⟩ := ih cl hm
      exact ⟨r, List.mem_cons_of_mem _ hr, raw, ha, hb, hc⟩
    cases hx : x.detected.raw_output with
    | none =>
      rw [stageA_cons_none c x xs hx] at h
      exact peel h
    | some s =>
      by_cases hs : s = ""
      · subst hs
        rw [stageA_cons_empty c x xs hx] at h
        exact peel h
      · rw [stageA_cons_some c x xs s hx hs] at h
        rcases List.mem_cons.mp h with h | h
        · exact ⟨x, List.mem_cons_self _ _, s, hx, hs, h⟩
        · exact peel h

/-- Every batch member with truthy raw text gets its condense call
logged. -/
theorem stageA_mem (c : Client) (l : List ScreenshotResult)
    (r : ScreenshotResult) (raw : String) (hr : r ∈ l)
    (h1 : r.detected.raw_output = some raw) (h2 : raw ≠ "") :
    Call.condense raw ∈ (stageA c l).2 := by
  induction l with
  | nil => cases hr
  | cons x xs ih =>
    rcases List.mem_cons.mp hr with h | h
    · subst h
      rw [stageA_cons_some c r xs raw h1 h2]
      exact List.mem_cons_self _ _
    · have hmem := ih h
      cases hx : x.detected.raw_output with
      | none => rw [stageA_cons_none c x xs hx]; exact hmem
      | some s =>
        by_cases hs : s = ""
        · subst hs
          rw [stageA_cons_empty c x xs hx]
          exact hmem
        · rw [stageA_cons_some c x xs s hx hs]
          exact List.mem_cons_of_mem _ hmem

/-- Every conversion call in the Stage-B log belongs to some batch member
with truthy raw text. -/
theorem stageB_sound (c : Client) (l : List ScreenshotResult) :
    ∀ cl ∈ (stageB c l).2, ∃ r ∈ l, ∃ raw,
      r.detected.raw_output = some raw ∧ raw ≠ "" ∧ cl = Call.convert raw := by
  induction l with
  | nil => intro cl h; cases h
  | cons x xs ih =>
    intro cl h
    rw [stageB_cons] at h
    rcases List.mem_append.mp h with h | h
    · rcases stageBStep_snd c x with hnil | ⟨raw, ha, hb, hc⟩
      · rw [hnil] at h; cases h
      · rw [hc] at h
        rcases List.mem_singleton.mp h with h
        exact ⟨x, List.mem_cons_self _ _, raw, ha, hb, h⟩
    · obtain ⟨r, hr, raw, ha, hb, hc⟩ := ih cl h
      exact ⟨r, List.mem_cons_of_mem _ hr, raw, ha, hb, hc⟩

/-- Every batch member with truthy raw text gets its conversion call
logged. -/
theorem stageB_mem (c : Client) (l : List ScreenshotResult)
    (r : ScreenshotResult) (raw : String) (hr : r ∈ l)
    (h1 : r.detected.raw_output = some raw) (h2 : raw ≠ "") :
    Call.convert raw ∈ (stageB c l).2 := by
  induction l with
  | nil => cases hr
  | cons x xs ih =>
    rw [stageB_cons]
    rcases List.mem_cons.mp hr with h | h
    · have hx1 : x.detected.raw_output = some raw := by rw [← h]; exact h1
      rw [stageBStep_truthy c x raw hx1 h2]
      exact List.mem_append.mpr (.inl (List.mem_singleton.mpr rfl))
    · exact List.mem_append.mpr (.inr (ih h))

/-- A left `max` fold dominates its seed. -/
theorem le_foldl_max (x : Rat) (l : List Rat) : x ≤ l.foldl max x := by
  induction l generalizing x with
  | nil => exact le_refl x
  | cons y ys ih => exact le_trans (le_max_left x y) (ih (max x y))

/-- A left `max` fold dominates every list member. -/
theorem mem_le_foldl_max (a : Rat) (l : List Rat) (h : a ∈ l) :
    ∀ x, a ≤ l.foldl max x := by
  induction h with
  | head ys => exact fun x => le_trans (le_max_right x a) (le_foldl_max _ _)
  | tail y _ ih => exact fun x => ih (max x y)

/-- A left `max` fold is its seed or a list member. -/
theorem foldl_max_mem (x : Rat) (l : List Rat) :
    l.foldl max x = x ∨ l.foldl max x ∈ l := by
  induction l generalizing x with
  | nil => exact .inl rfl
  | cons y ys ih =>
    rcases ih (max x y) with h | h
    · rcases max_choice x y with hm | hm
      · exact .inl (by rw [List.foldl_cons, h, hm])
      · exact .inr (by rw [List.foldl_cons, h, hm]; exact List.mem_cons_self _ _)
    · exact .inr (List.mem_cons_of_mem _ h)

/-- Reduction of an `Except` bind on a success. -/
theorem ok_bind {α β : Type} (x : α) (f : α → Except String β) :
    (Except.ok x >>= f) = f x := rfl

/-- Reduction of an `Except` bind on a failure. -/
theorem error_bind {α β : Type} (e : String) (f : α → Except String β) :
    ((Except.error e : Except String α) >>= f) = Except.error e := rfl

/-- A plan the planner returns is exactly what the validator accepted. -/
theorem planner_ok_inv (goal : String) (j : Json) (p : TaskPlan)
    (h : planner goal (.ok (.ok j)) = .ok p) : validatePlan j = .ok p := by
  unfold planner plannerAttempt at h
  by_cases hg : pyStrip goal = ""
  · rw [if_pos hg] at h
    cases h
  · rw [if_neg hg] at h
    dsimp only [Except.bind] at h
    cases hv : validatePlan j with
    | ok q =>
      rw [hv] at h
      cases h
      rfl
    | error d =>
      rw [hv] at h
      cases h

/-- Inversion of `validatePlan` on an object document: the accepted plan's
`current_task_index` and `status` come from the dedicated field parsers. -/
theorem validatePlan_inv (fs : List (String × Json)) (p : TaskPlan)
    (h : validatePlan (.obj fs) = .ok p) :
    intFieldD fs "current_task_index" 0 = .ok p.current_task_index
    ∧ statusFieldD fs "status" .pending = .ok p.status := by
  unfold validatePlan at h
  dsimp only [Json.getObj] at h
  cases h1 : reqStr fs "goal" with
  | error e => rw [h1, error_bind] at h; cases h
  | ok g =>
    rw [h1, ok_bind] at h
    cases h2 : reqArr fs "tasks" with
    | error e => rw [h2, error_bind] at h; cases h
    | ok tasksJ =>
      rw [h2, ok_bind] at h
      cases h3 : traverseE validateTask tasksJ with
      | error e => rw [h3, error_bind] at h; cases h
      | ok tasks =>
        rw [h3, ok_bind] at h
        cases h4 : intFieldD fs "current_task_index" 0 with
        | error e => rw [h4, error_bind] at h; cases h
        | ok idx =>
          rw [h4, ok_bind] at h
          cases h5 : statusFieldD fs "status" .pending with
          | error e => rw [h5, error_bind] at h; cases h
          | ok st =>
            rw [h5, ok_bind] at h
            cases h
            exact ⟨rfl, rfl⟩

/-- One state-machine step preserves the `retry_count ≤ max_retries`
invariant. -/
theorem applyVStep_invariant (s : VStep) (v : ValidationResult)
    (h : v.retry_count ≤ v.max_retries) :
    (applyVStep s v).retry_count ≤ (applyVStep s v).max_retries := by
  cases s with
  | retryStep =>
    cases hst : v.status <;> simp only [applyVStep, hst]
    · split
      · exact show v.retry_count + 1 ≤ v.max_retries by omega
      · exact h
    · exact h
    · exact h
    · split
      · exact show v.retry_count + 1 ≤ v.max_retries by omega
      · exact h
  | newAttempt =>
    cases hst : v.status <;> simp only [applyVStep, hst] <;> exact h

/-- Any sequence of state-machine steps preserves the invariant. -/
theorem runVSteps_invariant (ss : List VStep) (v : ValidationResult)
    (h : v.retry_count ≤ v.max_retries) :
    (runVSteps ss v).retry_count ≤ (runVSteps ss v).max_retries := by
  induction ss generalizing v with
  | nil => exact h
  | cons s rest ih => exact ih _ (applyVStep_invariant s v h)

/-- A traversal with a failing member fails as a whole (one exception aborts
the whole list comprehension). -/
theorem traverse_none {α β : Type} (f : α → Option β) (l : List α)
    (h : ∃ x ∈ l, f x = none) : traverse f l = none := by
  induction l with
  | nil =>
    obtain ⟨x, hx, _⟩ := h
    cases hx
  | cons y ys ih =>
    obtain ⟨x, hx, hfx⟩ := h
    show (do pure ((← f y) :: (← traverse f ys)) : Option (List β)) = none
    rcases List.mem_cons.mp hx with h1 | h1
    · subst h1
      rw [hfx]
      rfl
    · cases hfy : f y with
      | none => rfl
      | some b =>
        rw [ih ⟨x, h1, hfx⟩]
        rfl

/-- When the parsed Stage-B document holds an entry that fails to resolve,
the whole update is a no-op: the raised exception aborts the comprehension
before any assignment. -/
theorem stageBUpdate_bad_entry (c : Client) (raw : String)
    (d : DetectedElements) (fs : List (String × Json)) (entries : List Json)
    (hconv : c.convert raw = some (.obj fs))
    (hel : lookupKey fs "elements" = some (.arr entries))
    (hbad : ∃ e ∈ entries, resolveEntry e = none) :
    stageBUpdate c raw d = d := by
  unfold stageBUpdate
  rw [hconv]
  dsimp only
  rw [hel]
  dsimp only [Json.getArr]
  rw [traverse_none resolveEntry entries hbad]

/-- If the update is the identity on this screenshot's raw text, the step
returns the screenshot unchanged. -/
theorem stageBStep_fst_of_update_id (c : Client) (r : ScreenshotResult)
    (h : ∀ raw, r.detected.raw_output = some raw →
      stageBUpdate c raw r.detected = r.detected) :
    (stageBStep c r).1 = r := by
  by_cases ht : truthy r.detected.raw_output = true
  · cases hro : r.detected.raw_output with
    | none => rw [hro] at ht; simp [truthy] at ht
    | some raw =>
      have h2 : raw ≠ "" := by
        rw [hro] at ht
        simpa [truthy] using ht
      rw [stageBStep_truthy c r raw hro h2, h raw hro]
  · rw [stageBStep_not_truthy c r (by simpa using ht)]

/-- Indexing the pipeline's output: position `i` holds the step applied to
the input at position `i`. -/
theorem results_getElem (c : Client) (tp : TaskPlan)
    (l : List ScreenshotResult) (i : Nat) (r : ScreenshotResult)
    (hr : l[i]? = some r) :
    (process_outputs c l tp).results[i]? = some ((stageBStep c r).1) := by
  show (stageB c l).1[i]? = _
  rw [stageB_fst, List.getElem?_map, hr]
  rfl

/-- The pipeline returns exactly one result per input. -/
theorem results_length (c : Client) (tp : TaskPlan)
    (l : List ScreenshotResult) :
    (process_outputs c l tp).results.length = l.length := by
  show (stageB c l).1.length = _
  rw [stageB_fst, List.length_map]

/-- Unfolding equation of `aggregate` on a non-empty list. -/
theorem aggregate_cons (d : DetectedElements) (e : DetectedElement)
    (es : List DetectedElement) :
    aggregate d (e :: es) =
      ({ d with
          elements := e :: es,
          total_count := ((e :: es).length : Int),
          highest_confidence :=
            (es.map (fun x => x.confidence)).foldl max e.confidence },
       true) := rfl

/-- Unfolding equation of `aggregate` on the empty list: the two leading
assignments land, then `max` raises. -/
theorem aggregate_nil (d : DetectedElements) :
    aggregate d [] = ({ d with elements := [], total_count := 0 }, false) :=
  rfl

/-! ## Claim theorems -/

/-- Claim C1: the spec states that Stage B converts the condensed
itemization produced by Stage A for the same screenshot.  Evaluating the
embedded `process_outputs` on a one-screenshot batch whose raw text is "RAW"
and whose collaborator condenses everything to "CONDENSED LIST" shows the
opposite: Stage A's output is collected (and never used) while the Stage-B
conversion call carries the ORIGINAL raw text "RAW" as its user content
(vision_output_processor.py line 178). -/
theorem stageB_input_is_raw_not_condensed :
    (process_outputs c1Client [c1Shot] exPlan).condensed_elements
      = ["CONDENSED LIST"]
    ∧ (process_outputs c1Client [c1Shot] exPlan).calls
      = [Call.condense "RAW", Call.convert "RAW"]
    ∧ "RAW" ≠ "CONDENSED LIST" :=
  ⟨by decide, by decide, by decide⟩

/-- Claim C2 (counterexample): a parsed document with one resolvable entry
(`c2Good`) and one entry with out-of-vocabulary element_type (`c2Bad`)
yields NO detected element for that screenshot — the resolvable entry is
dropped too, refuting the per-element skip; and a document whose only entry
carries confidence 3.5 ∉ [0,1] is accepted, refuting that such entries fail
to resolve. -/
theorem stageB_drops_whole_document_not_one_entry :
    resolveEntry c2Good = some c2GoodDE
    ∧ (process_outputs c2Client [c2Shot1, c2Shot2] exPlan).results[0]?
        = some c2Shot1
    ∧ c2Shot1.detected.elements = []
    ∧ ((process_outputs c2Client [c2Shot1, c2Shot2] exPlan).results[1]?).map
        (fun r => r.detected.elements.map (fun e => e.confidence))
        = some [mkRat 7 2] :=
  ⟨by decide, by decide, by decide, by decide⟩

/-- Claim C2 (amended): in Stage B, a parsed document containing any entry
that fails to resolve (out-of-vocabulary element_type, missing required key
or unresolvable action) fails the conversion of the WHOLE document: no entry
of it becomes a `DetectedElement` and that screenshot's result is left
unchanged; moreover confidence is not range-checked at this stage — an
entry resolves whatever its confidence value. -/
theorem stageB_entry_failure_fails_whole_document (c : Client)
    (tp : TaskPlan) (l : List ScreenshotResult) (i : Nat)
    (r : ScreenshotResult) (raw : String) (fs : List (String × Json))
    (entries : List Json) (hr : l[i]? = some r)
    (hraw : r.detected.raw_output = some raw)
    (hconv : c.convert raw = some (.obj fs))
    (hel : lookupKey fs "elements" = some (.arr entries))
    (hbad : ∃ e ∈ entries, resolveEntry e = none) :
    (process_outputs c l tp).results[i]? = some r
    ∧ ∀ q : Rat, resolveEntry (confEntry q) = some (confDE q) := by
  constructor
  · rw [results_getElem c tp l i r hr]
    rw [stageBStep_fst_of_update_id c r]
    intro raw2 hraw2
    rw [hraw] at hraw2
    injection hraw2 with he
    subst he
    exact stageBUpdate_bad_entry c raw r.detected fs entries hconv hel hbad
  · intro q
    rfl

/-- Claim C2 (witness). -/
theorem stageB_entry_failure_fails_whole_document_witness :
    (process_outputs c2Client [c2Shot1, c2Shot2] exPlan).results[0]?
      = some c2Shot1
    ∧ resolveEntry (confEntry (mkRat 7 2)) = some (confDE (mkRat 7 2)) := by
  have h := stageB_entry_failure_fails_whole_document c2Client exPlan
    [c2Shot1, c2Shot2] 0 c2Shot1 "RAW1" [("elements", .arr [c2Good, c2Bad])]
    [c2Good, c2Bad] (by decide) rfl rfl rfl
    ⟨c2Bad, List.mem_cons_of_mem _ (List.mem_cons_self _ _), by decide⟩
  exact ⟨h.1, h.2 (mkRat 7 2)⟩

/-- Claim C3 (counterexample): on the empty element list the aggregation
step fails (Python `max` over an empty sequence raises) after the first two
assignments have landed, and `highest_confidence` keeps its previous value
0.5 instead of being set to 0.0. -/
theorem aggregate_empty_list_fails :
    (aggregate c3Prior []).2 = false
    ∧ (aggregate c3Prior []).1.highest_confidence = mkRat 1 2
    ∧ ¬ (aggregate c3Prior []).1.highest_confidence = 0
    ∧ (aggregate c3Prior []).1.elements = []
    ∧ (aggregate c3Prior []).1.total_count = 0 :=
  ⟨by decide, by decide, by decide, by decide, by decide⟩

/-- Claim C3 (amended): for every NON-EMPTY element list the aggregation
succeeds, sets `elements` to the list, `total_count` to its length and
`highest_confidence` to the maximum confidence, and re-running it on the
same list changes nothing; on the empty list it fails (max() of an empty
sequence) after assigning `elements = []` and `total_count = 0`, leaving
`highest_confidence` untouched. -/
theorem aggregate_spec (d : DetectedElements) (es : List DetectedElement) :
    (es ≠ [] →
      (aggregate d es).2 = true
      ∧ (aggregate d es).1.elements = es
      ∧ (aggregate d es).1.total_count = (es.length : Int)
      ∧ (∀ e ∈ es, e.confidence ≤ (aggregate d es).1.highest_confidence)
      ∧ (∃ e ∈ es, (aggregate d es).1.highest_confidence = e.confidence)
      ∧ aggregate (aggregate d es).1 es = ((aggregate d es).1, true))
    ∧ (es = [] →
      aggregate d es = ({ d with elements := [], total_count := 0 }, false)) := by
  constructor
  · intro hne
    cases es with
    | nil => exact absurd rfl hne
    | cons e es' =>
      rw [aggregate_cons]
      dsimp only
      refine ⟨rfl, rfl, rfl, ?_, ?_, ?_⟩
      · intro a ha
        rcases List.mem_cons.mp ha with h1 | h1
        · subst h1
          exact le_foldl_max _ _
        · exact mem_le_foldl_max a.confidence _
            (List.mem_map_of_mem _ h1) _
      · rcases foldl_max_mem e.confidence (es'.map fun x => x.confidence)
          with h1 | h1
        · exact ⟨e, List.mem_cons_self _ _, h1⟩
        · obtain ⟨a, ha, hconf⟩ := List.mem_map.mp h1
          exact ⟨a, List.mem_cons_of_mem _ ha, hconf.symm⟩
      · rw [aggregate_cons]
  · intro he
    subst he
    exact aggregate_nil d

/-- Claim C3 (witness). -/
theorem aggregate_spec_witness :
    (aggregate c3Prior [c2GoodDE]).2 = true
    ∧ (aggregate c3Prior [c2GoodDE]).1.elements = [c2GoodDE]
    ∧ (aggregate c3Prior [c2GoodDE]).1.total_count
        = (([c2GoodDE] : List DetectedElement).length : Int)
    ∧ aggregate (aggregate c3Prior [c2GoodDE]).1 [c2GoodDE]
        = ((aggregate c3Prior [c2GoodDE]).1, true) := by
  have h := (aggregate_spec c3Prior [c2GoodDE]).1 (by decide)
  exact ⟨h.1, h.2.1, h.2.2.1, h.2.2.2.2.2⟩

/-- Claim C7: when the conversion response for a screenshot fails the
top-level JSON parse, that screenshot's result is returned exactly as it
was before the call (its `DetectedElements` unchanged, so `raw_output` kept
and `elements` still empty), every other screenshot's result is exactly
what the pipeline computes for it independently, and the output still has
one result per input. -/
theorem parse_failure_preserves_batch (c : Client) (tp : TaskPlan)
    (l : List ScreenshotResult) (i : Nat) (r : ScreenshotResult)
    (raw : String) (hr : l[i]? = some r)
    (hraw : r.detected.raw_output = some raw)
    (hfail : c.convert raw = none) :
    (process_outputs c l tp).results.length = l.length
    ∧ (process_outputs c l tp).results[i]? = some r
    ∧ (∀ (j : Nat) (rj : ScreenshotResult), l[j]? = some rj →
        (process_outputs c l tp).results[j]? = some ((stageBStep c rj).1)) := by
  refine ⟨results_length c tp l, ?_,
    fun j rj hrj => results_getElem c tp l j rj hrj⟩
  rw [results_getElem c tp l i r hr]
  rw [stageBStep_fst_of_update_id c r]
  intro raw2 hraw2
  rw [hraw] at hraw2
  injection hraw2 with he
  subst he
  exact stageBUpdate_parse_fail c raw r.detected hfail

/-- Claim C7 (witness). -/
theorem parse_failure_preserves_batch_witness :
    (process_outputs c1Client [c1Shot] exPlan).results.length = 1
    ∧ (process_outputs c1Client [c1Shot] exPlan).results[0]? = some c1Shot := by
  have h := parse_failure_preserves_batch c1Client exPlan [c1Shot] 0 c1Shot
    "RAW" (by decide) rfl rfl
  exact ⟨h.1, h.2.1⟩

/-- Claim C8: a screenshot whose `raw_output` is absent or empty passes
through untouched and triggers no collaborator call (every logged call
carries the truthy raw text of some batch member), a screenshot with
non-empty raw text gets both its condense and its conversion call, and the
output has one entry per input at the same position. -/
theorem pipeline_skips_empty_processes_nonempty (c : Client) (tp : TaskPlan)
    (l : List ScreenshotResult) (i : Nat) (r : ScreenshotResult)
    (hr : l[i]? = some r) :
    (process_outputs c l tp).results.length = l.length
    ∧ (truthy r.detected.raw_output = false →
        (process_outputs c l tp).results[i]? = some r)
    ∧ (∀ raw, r.detected.raw_output = some raw → raw ≠ "" →
        Call.condense raw ∈ (process_outputs c l tp).calls
        ∧ Call.convert raw ∈ (process_outputs c l tp).calls)
    ∧ (∀ cl ∈ (process_outputs c l tp).calls, ∃ r2 ∈ l, ∃ raw2,
        r2.detected.raw_output = some raw2 ∧ raw2 ≠ ""
        ∧ (cl = Call.condense raw2 ∨ cl = Call.convert raw2)) := by
  have hcalls : (process_outputs c l tp).calls
      = (stageA c l).2 ++ (stageB c l).2 := rfl
  refine ⟨results_length c tp l, ?_, ?_, ?_⟩
  · intro hf
    rw [results_getElem c tp l i r hr, stageBStep_not_truthy c r hf]
  · intro raw h1 h2
    constructor
    · rw [hcalls]
      exact List.mem_append.mpr
        (.inl (stageA_mem c l r raw (List.getElem?_mem hr) h1 h2))
    · rw [hcalls]
      exact List.mem_append.mpr
        (.inr (stageB_mem c l r raw (List.getElem?_mem hr) h1 h2))
  · intro cl hcl
    rw [hcalls] at hcl
    rcases List.mem_append.mp hcl with h | h
    · obtain ⟨r2, hr2, raw2, ha, hb, hc⟩ := stageA_sound c l cl h
      exact ⟨r2, hr2, raw2, ha, hb, .inl hc⟩
    · obtain ⟨r2, hr2, raw2, ha, hb, hc⟩ := stageB_sound c l cl h
      exact ⟨r2, hr2, raw2, ha, hb, .inr hc⟩

/-- Claim C8 (witness): three screenshots where only the second has
non-empty raw text — the first result is untouched and the second's
conversion call is logged. -/
theorem pipeline_skips_empty_processes_nonempty_witness :
    (process_outputs c8Client [c8Shot1, c8Shot2, c8Shot3] exPlan).results.length = 3
    ∧ (process_outputs c8Client [c8Shot1, c8Shot2, c8Shot3] exPlan).results[0]?
        = some c8Shot1
    ∧ Call.convert "TEXT2"
        ∈ (process_outputs c8Client [c8Shot1, c8Shot2, c8Shot3] exPlan).calls := by
  have h := pipeline_skips_empty_processes_nonempty c8Client exPlan
    [c8Shot1, c8Shot2, c8Shot3] 0 c8Shot1 (by decide)
  have h2 := pipeline_skips_empty_processes_nonempty c8Client exPlan
    [c8Shot1, c8Shot2, c8Shot3] 1 c8Shot2 (by decide)
  exact ⟨h.1, h.2.1 (by decide), (h2.2.2.1 "TEXT2" rfl (by decide)).2⟩

/-- Claim C10: the pipeline returns one result per input position, and the
result at position `i` differs from the input there at most in the derived
`detected` fields: `metadata`, `validation_status`, `analysis_complete` and
`detected.raw_output` are all preserved. -/
theorem pipeline_touches_only_detected_fields (c : Client) (tp : TaskPlan)
    (l : List ScreenshotResult) (i : Nat) (r : ScreenshotResult)
    (hr : l[i]? = some r) :
    (process_outputs c l tp).results.length = l.length
    ∧ ∀ r', (process_outputs c l tp).results[i]? = some r' →
        r'.metadata = r.metadata
        ∧ r'.validation_status = r.validation_status
        ∧ r'.analysis_complete = r.analysis_complete
        ∧ r'.detected.raw_output = r.detected.raw_output := by
  refine ⟨results_length c tp l, ?_⟩
  intro r' h
  rw [results_getElem c tp l i r hr] at h
  injection h with h
  subst h
  exact stageBStep_frame c r

/-- Claim C10 (witness). -/
theorem pipeline_touches_only_detected_fields_witness :
    ((process_outputs c1Client [c1Shot] exPlan).results[0]?).map
      (fun r' => r'.metadata) = some c1Shot.metadata := by
  have h := pipeline_touches_only_detected_fields c1Client exPlan [c1Shot] 0
    c1Shot (by decide)
  cases hx : (process_outputs c1Client [c1Shot] exPlan).results[0]? with
  | none =>
    rw [results_getElem c1Client exPlan [c1Shot] 0 c1Shot (by decide)] at hx
    cases hx
  | some r' =>
    show some r'.metadata = some c1Shot.metadata
    rw [(h.2 r' hx).1]

/-- Claim C4 (counterexample): the claim says a returned plan has
`current_task_index = 0` and `status = pending` regardless of what the
collaborator's JSON carried; but on a response carrying index 2 and status
"success" the planner returns a plan with exactly those values —
`TaskPlan.model_validate_json` applies the defaults only to absent
fields. -/
theorem planner_returns_response_index_status :
    ((planner "find cats" (.ok (.ok c4Json))).plan).map
        (fun p => (p.current_task_index, p.status)) = some (2, .success)
    ∧ ((planner "find cats" (.ok (.ok c4Json))).plan).map
        (fun p => (p.current_task_index, p.status)) ≠ some (0, .pending) :=
  ⟨by decide, by decide⟩

/-- Claim C4 (amended): for every returned plan, `current_task_index` is 0
and `status` is pending exactly when the collaborator's JSON omits those
fields (pydantic defaults); when the response carries them, the carried
values are preserved unchanged. -/
theorem planner_index_status_from_response (goal : String)
    (fs : List (String × Json)) (p : TaskPlan)
    (hok : planner goal (.ok (.ok (.obj fs))) = .ok p) :
    (lookupKey fs "current_task_index" = none → p.current_task_index = 0)
    ∧ (lookupKey fs "status" = none → p.status = .pending)
    ∧ (∀ q : Rat, lookupKey fs "current_task_index" = some (.num q) →
        q.den = 1 → p.current_task_index = q.num)
    ∧ (∀ s st, lookupKey fs "status" = some (.str s) →
        ValidationStatus.ofString s = some st → p.status = st) := by
  obtain ⟨hidx, hst⟩ := validatePlan_inv fs p (planner_ok_inv goal _ p hok)
  refine ⟨?_, ?_, ?_, ?_⟩
  · intro h
    unfold intFieldD at hidx
    rw [h] at hidx
    injection hidx with h2
    exact h2.symm
  · intro h
    unfold statusFieldD at hst
    rw [h] at hst
    injection hst with h2
    exact h2.symm
  · intro q hq hden
    simp only [intFieldD, hq, Json.getInt] at hidx
    rw [if_pos hden] at hidx
    injection hidx with h2
    exact h2.symm
  · intro s st hs hofs
    simp only [statusFieldD, hs] at hst
    rw [hofs] at hst
    injection hst with h2
    exact h2.symm

/-- Claim C4 (witness): a response omitting both fields yields the
defaults. -/
theorem planner_index_status_from_response_witness :
    ({ goal := "g2", tasks := [] } : TaskPlan).current_task_index = 0
    ∧ ({ goal := "g2", tasks := [] } : TaskPlan).status = .pending := by
  have h := planner_index_status_from_response "goalX"
    [("goal", Json.str "g2"), ("tasks", Json.arr [])]
    { goal := "g2", tasks := [] } rfl
  exact ⟨h.1 rfl, h.2.1 rfl⟩

/-- Claim C5 (counterexample): the planner returns a plan whose only task
"t1" depends on "ghost", an id naming no task of the plan — no
dependency-existence check exists anywhere in the validation. -/
theorem planner_returns_plan_with_absent_dependency :
    ((planner "find dogs" (.ok (.ok (depDoc "ghost")))).plan).map
        (fun p => p.tasks.map (fun t => t.task_id)) = some ["t1"]
    ∧ ((planner "find dogs" (.ok (.ok (depDoc "ghost")))).plan).map
        (fun p => p.tasks.map (fun t => t.dependencies)) = some [["ghost"]]
    ∧ ¬ ("ghost" ∈ (["t1"] : List String)) :=
  ⟨by decide, by decide, by decide⟩

/-- Claim C5 (amended): the Plan Builder performs no dependency-existence
validation at all — for EVERY dependency id, even one naming no task, the
response `depDoc dep` yields a returned plan carrying that id unchanged. -/
theorem planner_accepts_any_dependency_id (dep : String) :
    planner "find dogs" (.ok (.ok (depDoc dep))) = .ok (depPlan dep)
    ∧ (depPlan dep).tasks.map (fun t => t.dependencies) = [[dep]] :=
  ⟨rfl, rfl⟩

/-- Claim C6: the code means to distinguish a parse/validation failure
(`ValueError`, task_planner.py line 198) from a provider failure
(`RuntimeError`, line 202), but the inner `raise` happens inside the outer
`try`, whose `except Exception` catches it — so BOTH failure modes reach
the caller as the same `RuntimeError` type (the parse diagnostic survives
only inside the message text). -/
theorem planner_collapses_parse_and_provider_errors :
    planner "find cats" (.ok (.error "Expecting value: line 1 column 1 (char 0)"))
      = .runtimeError "Failed to generate task plan: Failed to parse GPT response into TaskPlan: Expecting value: line 1 column 1 (char 0)"
    ∧ planner "find cats" (.error "Connection error.")
      = .runtimeError "Failed to generate task plan: Connection error."
    ∧ (planner "find cats"
        (.ok (.error "Expecting value: line 1 column 1 (char 0)"))).isRuntimeError
      = (planner "find cats" (.error "Connection error.")).isRuntimeError :=
  ⟨rfl, rfl, rfl⟩

/-- Claim C9: starting from a pending validation result with zero retries
(the `TaskAction` default) and any non-negative retry budget, no sequence
of state-machine steps can push `retry_count` beyond `max_retries` — the
modelled transition clamps the increment by settling the result as failed
instead. -/
theorem retry_count_never_exceeds_max_retries (v : ValidationResult)
    (ss : List VStep) (_hpending : v.status = .pending)
    (hzero : v.retry_count = 0) (hmax : 0 ≤ v.max_retries) :
    (runVSteps ss v).retry_count ≤ (runVSteps ss v).max_retries :=
  runVSteps_invariant ss v (by omega)

/-- Claim C9 (witness): six steps against the default budget of 3. -/
theorem retry_count_never_exceeds_max_retries_witness :
    (runVSteps
        [VStep.retryStep, VStep.retryStep, VStep.newAttempt,
         VStep.retryStep, VStep.retryStep, VStep.retryStep]
        { status := .pending, message := none, retry_count := 0,
          max_retries := 3 }).retry_count
      ≤ (runVSteps
        [VStep.retryStep, VStep.retryStep, VStep.newAttempt,
         VStep.retryStep, VStep.retryStep, VStep.retryStep]
        { status := .pending, message := none, retry_count := 0,
          max_retries := 3 }).max_retries :=
  retry_count_never_exceeds_max_retries _ _ rfl rfl (by decide)

end CUA
